import Mathlib

/-!
Verification of the order data models of `pandago_client`
(`src/pandago_client/dataclasses/order.py`).

The Python file declares pydantic `BaseModel` records with `Optional`
fields (no defaults), two `model_validator(mode="after")` checks, one
`computed_field`, and four string-backed enumerations.  We embed the
models shallowly: an input mapping is a finite association list from
field names to JSON-like values; each model gets a `parse…` function
(mirroring pydantic construction from a mapping: every declared field
key must be present, `Optional` fields accept an explicit null, type
mismatches fail) returning `Except String`, and a `dump…` function
(mirroring `model_dump`).  Numbers are modelled as `Rat` (covering the
Python ints and floats the API carries; no arithmetic is performed on
them), datetimes as an opaque carrier `Value.dt`.
-/

namespace Pandago

/-- JSON-like values of an input/output mapping.  `dt` carries a
datetime object (its content is never inspected by the models). -/
inductive Value where
  | null : Value
  | str (s : String) : Value
  | num (q : Rat) : Value
  | bool (b : Bool) : Value
  | obj (fields : List (String × Value)) : Value
  | dt (t : String) : Value

/-- An input mapping: field name to value, first binding wins. -/
abbrev Mapping := List (String × Value)

/-- Key lookup in a mapping. -/
def findVal : Mapping → String → Option Value
  | [], _ => none
  | p :: rest, k => if p.1 = k then some p.2 else findVal rest k

/-- Fetch a declared field: absence of the key is a validation error
(pydantic fields without a default are required). -/
def getField (m : Mapping) (k : String) : Except String Value :=
  match findVal m k with
  | some v => Except.ok v
  | none => Except.error ("field required: " ++ k)

def asStr : Value → Except String String
  | Value.str s => Except.ok s
  | _ => Except.error "expected a string"

def asNum : Value → Except String Rat
  | Value.num q => Except.ok q
  | _ => Except.error "expected a number"

def asBool : Value → Except String Bool
  | Value.bool b => Except.ok b
  | _ => Except.error "expected a boolean"

def asDt : Value → Except String String
  | Value.dt t => Except.ok t
  | _ => Except.error "expected a datetime"

def asInt : Value → Except String Int
  | Value.num q => if q.den = 1 then Except.ok q.num else Except.error "expected an integer"
  | _ => Except.error "expected an integer"

/-- An `Optional` field: an explicit null is accepted, any other value
must satisfy the field type. -/
def asOpt {α : Type} (f : Value → Except String α) : Value → Except String (Option α)
  | Value.null => Except.ok none
  | v => (f v).map some

theorem exceptBind_ok {ε α β : Type} {e : Except ε α} {f : α → Except ε β} {b : β} :
    (e >>= f) = Except.ok b ↔ ∃ a, e = Except.ok a ∧ f a = Except.ok b := by
  cases e <;> simp [Bind.bind, Except.bind]

/-- `class PaymentMethod(str, Enum)` of order.py. -/
inductive PaymentMethod where
  | PAID
  | CASH_ON_DELIVERY
deriving DecidableEq

def PaymentMethod.ofString (s : String) : Option PaymentMethod :=
  if s = "PAID" then some PaymentMethod.PAID
  else if s = "CASH_ON_DELIVERY" then some PaymentMethod.CASH_ON_DELIVERY
  else none

def PaymentMethod.toString : PaymentMethod → String
  | PaymentMethod.PAID => "PAID"
  | PaymentMethod.CASH_ON_DELIVERY => "CASH_ON_DELIVERY"

/-- `class OrderStatus(str, Enum)` of order.py: 13 members. -/
inductive OrderStatus where
  | NEW
  | RECEIVED
  | WAITING_FOR_TRANSPORT
  | ASSIGNED_TO_TRANSPORT
  | COURIER_ACCEPTED_DELIVERY
  | NEAR_VENDOR
  | PICKED_UP
  | COURIER_LEFT_VENDOR
  | NEAR_CUSTOMER
  | DELIVERED
  | DELAYED
  | CANCELLED
  | RETURNED_TO_VENDOR
deriving DecidableEq

def OrderStatus.ofString (s : String) : Option OrderStatus :=
  if s = "NEW" then some OrderStatus.NEW
  else if s = "RECEIVED" then some OrderStatus.RECEIVED
  else if s = "WAITING_FOR_TRANSPORT" then some OrderStatus.WAITING_FOR_TRANSPORT
  else if s = "ASSIGNED_TO_TRANSPORT" then some OrderStatus.ASSIGNED_TO_TRANSPORT
  else if s = "COURIER_ACCEPTED_DELIVERY" then some OrderStatus.COURIER_ACCEPTED_DELIVERY
  else if s = "NEAR_VENDOR" then some OrderStatus.NEAR_VENDOR
  else if s = "PICKED_UP" then some OrderStatus.PICKED_UP
  else if s = "COURIER_LEFT_VENDOR" then some OrderStatus.COURIER_LEFT_VENDOR
  else if s = "NEAR_CUSTOMER" then some OrderStatus.NEAR_CUSTOMER
  else if s = "DELIVERED" then some OrderStatus.DELIVERED
  else if s = "DELAYED" then some OrderStatus.DELAYED
  else if s = "CANCELLED" then some OrderStatus.CANCELLED
  else if s = "RETURNED_TO_VENDOR" then some OrderStatus.RETURNED_TO_VENDOR
  else none

def OrderStatus.toString : OrderStatus → String
  | OrderStatus.NEW => "NEW"
  | OrderStatus.RECEIVED => "RECEIVED"
  | OrderStatus.WAITING_FOR_TRANSPORT => "WAITING_FOR_TRANSPORT"
  | OrderStatus.ASSIGNED_TO_TRANSPORT => "ASSIGNED_TO_TRANSPORT"
  | OrderStatus.COURIER_ACCEPTED_DELIVERY => "COURIER_ACCEPTED_DELIVERY"
  | OrderStatus.NEAR_VENDOR => "NEAR_VENDOR"
  | OrderStatus.PICKED_UP => "PICKED_UP"
  | OrderStatus.COURIER_LEFT_VENDOR => "COURIER_LEFT_VENDOR"
  | OrderStatus.NEAR_CUSTOMER => "NEAR_CUSTOMER"
  | OrderStatus.DELIVERED => "DELIVERED"
  | OrderStatus.DELAYED => "DELAYED"
  | OrderStatus.CANCELLED => "CANCELLED"
  | OrderStatus.RETURNED_TO_VENDOR => "RETURNED_TO_VENDOR"

/-- The 13 member strings of `OrderStatus`, in declaration order. -/
def orderStatusStrings : List String :=
  ["NEW", "RECEIVED", "WAITING_FOR_TRANSPORT", "ASSIGNED_TO_TRANSPORT",
   "COURIER_ACCEPTED_DELIVERY", "NEAR_VENDOR", "PICKED_UP", "COURIER_LEFT_VENDOR",
   "NEAR_CUSTOMER", "DELIVERED", "DELAYED", "CANCELLED", "RETURNED_TO_VENDOR"]

/-- `class CancellationSource(str, Enum)` of order.py.  The source spells
the second member name `LOGISITICS`; its string value is `"LOGISTICS"`. -/
inductive CancellationSource where
  | CLIENT
  | LOGISITICS
deriving DecidableEq

def CancellationSource.ofString (s : String) : Option CancellationSource :=
  if s = "CLIENT" then some CancellationSource.CLIENT
  else if s = "LOGISTICS" then some CancellationSource.LOGISITICS
  else none

def CancellationSource.toString : CancellationSource → String
  | CancellationSource.CLIENT => "CLIENT"
  | CancellationSource.LOGISITICS => "LOGISTICS"

/-- `class CancellationReason(str, Enum)` of order.py: 18 members. -/
inductive CancellationReason where
  | ADDRESS_INCOMPLETE_MISSTATED
  | BAD_WEATHER
  | CLOSED
  | COURIER_ACCIDENT
  | COURIER_UNREACHABLE
  | DELIVERY_ETA_TOO_LONG
  | DUPLICATE_ORDER
  | FOOD_QUALITY_SPILLAGE
  | LATE_DELIVERY
  | MISTAKE_ERROR
  | NO_COURIER
  | OUTSIDE_DELIVERY_AREA
  | OUTSIDE_SERVICE_HOURS
  | REASON_UNKNOWN
  | TECHNICAL_PROBLEM
  | UNABLE_TO_FIND
  | UNABLE_TO_PAY
  | WRONG_ORDER_ITEMS_DELIVERED
deriving DecidableEq

def CancellationReason.ofString (s : String) : Option CancellationReason :=
  if s = "ADDRESS_INCOMPLETE_MISSTATED" then some CancellationReason.ADDRESS_INCOMPLETE_MISSTATED
  else if s = "BAD_WEATHER" then some CancellationReason.BAD_WEATHER
  else if s = "CLOSED" then some CancellationReason.CLOSED
  else if s = "COURIER_ACCIDENT" then some CancellationReason.COURIER_ACCIDENT
  else if s = "COURIER_UNREACHABLE" then some CancellationReason.COURIER_UNREACHABLE
  else if s = "DELIVERY_ETA_TOO_LONG" then some CancellationReason.DELIVERY_ETA_TOO_LONG
  else if s = "DUPLICATE_ORDER" then some CancellationReason.DUPLICATE_ORDER
  else if s = "FOOD_QUALITY_SPILLAGE" then some CancellationReason.FOOD_QUALITY_SPILLAGE
  else if s = "LATE_DELIVERY" then some CancellationReason.LATE_DELIVERY
  else if s = "MISTAKE_ERROR" then some CancellationReason.MISTAKE_ERROR
  else if s = "NO_COURIER" then some CancellationReason.NO_COURIER
  else if s = "OUTSIDE_DELIVERY_AREA" then some CancellationReason.OUTSIDE_DELIVERY_AREA
  else if s = "OUTSIDE_SERVICE_HOURS" then some CancellationReason.OUTSIDE_SERVICE_HOURS
  else if s = "REASON_UNKNOWN" then some CancellationReason.REASON_UNKNOWN
  else if s = "TECHNICAL_PROBLEM" then some CancellationReason.TECHNICAL_PROBLEM
  else if s = "UNABLE_TO_FIND" then some CancellationReason.UNABLE_TO_FIND
  else if s = "UNABLE_TO_PAY" then some CancellationReason.UNABLE_TO_PAY
  else if s = "WRONG_ORDER_ITEMS_DELIVERED" then some CancellationReason.WRONG_ORDER_ITEMS_DELIVERED
  else none

def CancellationReason.toString : CancellationReason → String
  | CancellationReason.ADDRESS_INCOMPLETE_MISSTATED => "ADDRESS_INCOMPLETE_MISSTATED"
  | CancellationReason.BAD_WEATHER => "BAD_WEATHER"
  | CancellationReason.CLOSED => "CLOSED"
  | CancellationReason.COURIER_ACCIDENT => "COURIER_ACCIDENT"
  | CancellationReason.COURIER_UNREACHABLE => "COURIER_UNREACHABLE"
  | CancellationReason.DELIVERY_ETA_TOO_LONG => "DELIVERY_ETA_TOO_LONG"
  | CancellationReason.DUPLICATE_ORDER => "DUPLICATE_ORDER"
  | CancellationReason.FOOD_QUALITY_SPILLAGE => "FOOD_QUALITY_SPILLAGE"
  | CancellationReason.LATE_DELIVERY => "LATE_DELIVERY"
  | CancellationReason.MISTAKE_ERROR => "MISTAKE_ERROR"
  | CancellationReason.NO_COURIER => "NO_COURIER"
  | CancellationReason.OUTSIDE_DELIVERY_AREA => "OUTSIDE_DELIVERY_AREA"
  | CancellationReason.OUTSIDE_SERVICE_HOURS => "OUTSIDE_SERVICE_HOURS"
  | CancellationReason.REASON_UNKNOWN => "REASON_UNKNOWN"
  | CancellationReason.TECHNICAL_PROBLEM => "TECHNICAL_PROBLEM"
  | CancellationReason.UNABLE_TO_FIND => "UNABLE_TO_FIND"
  | CancellationReason.UNABLE_TO_PAY => "UNABLE_TO_PAY"
  | CancellationReason.WRONG_ORDER_ITEMS_DELIVERED => "WRONG_ORDER_ITEMS_DELIVERED"

/-- Parse a string-backed enumeration field from a mapping value. -/
def asEnum {α : Type} (ofS : String → Option α) (v : Value) : Except String α :=
  match v with
  | Value.str s =>
    match ofS s with
    | some e => Except.ok e
    | none => Except.error "value is not a member of the enumeration"
  | _ => Except.error "expected an enumeration string"

/-- Parse a nested-model field (pydantic recurses into sub-mappings). -/
def asObj {α : Type} (p : Mapping → Except String α) (v : Value) : Except String α :=
  match v with
  | Value.obj fs => p fs
  | _ => Except.error "expected an object"

/-- Dump an `Optional` field: an absent value serializes as null. -/
def optVal {α : Type} (f : α → Value) : Option α → Value
  | some a => f a
  | none => Value.null

/-- `class Location(BaseModel)` of order.py. -/
structure Location where
  address : String
  latitude : Rat
  longitude : Rat
  postalcode : Option String
deriving DecidableEq

def parseLocation (m : Mapping) : Except String Location := do
  let address ← getField m "address" >>= asStr
  let latitude ← getField m "latitude" >>= asNum
  let longitude ← getField m "longitude" >>= asNum
  let postalcode ← getField m "postalcode" >>= asOpt asStr
  Except.ok { address := address, latitude := latitude, longitude := longitude,
              postalcode := postalcode }

def dumpLocation (l : Location) : Mapping :=
  [("address", Value.str l.address), ("latitude", Value.num l.latitude),
   ("longitude", Value.num l.longitude), ("postalcode", optVal Value.str l.postalcode)]

/-- `class Sender(BaseModel)` of order.py. -/
structure Sender where
  name : Option String
  phone_number : Option String
  location : Option Location
  notes : Option String
  client_vendor_id : Option String
deriving DecidableEq

/-- The `model_validator(mode="after")` `check_sender_information`:
raises unless `client_vendor_id` is set, or `name`, `phone_number` and
`location` all are. -/
def Sender.check_sender_information (s : Sender) : Except String Sender :=
  if s.client_vendor_id = none then
    if s.name = none ∨ s.phone_number = none ∨ s.location = none then
      Except.error "Either client_vendor_id or name, phone_number, and location must be provided"
    else Except.ok s
  else Except.ok s

def parseSender (m : Mapping) : Except String Sender := do
  let name ← getField m "name" >>= asOpt asStr
  let phone_number ← getField m "phone_number" >>= asOpt asStr
  let location ← getField m "location" >>= asOpt (asObj parseLocation)
  let notes ← getField m "notes" >>= asOpt asStr
  let client_vendor_id ← getField m "client_vendor_id" >>= asOpt asStr
  Sender.check_sender_information
    { name := name, phone_number := phone_number, location := location,
      notes := notes, client_vendor_id := client_vendor_id }

def dumpSender (s : Sender) : Mapping :=
  [("name", optVal Value.str s.name),
   ("phone_number", optVal Value.str s.phone_number),
   ("location", optVal (fun l => Value.obj (dumpLocation l)) s.location),
   ("notes", optVal Value.str s.notes),
   ("client_vendor_id", optVal Value.str s.client_vendor_id)]

/-- `class Recipient(BaseModel)` of order.py. -/
structure Recipient where
  name : String
  phone_number : String
  location : Location
  notes : Option String
deriving DecidableEq

def parseRecipient (m : Mapping) : Except String Recipient := do
  let name ← getField m "name" >>= asStr
  let phone_number ← getField m "phone_number" >>= asStr
  let location ← getField m "location" >>= asObj parseLocation
  let notes ← getField m "notes" >>= asOpt asStr
  Except.ok { name := name, phone_number := phone_number, location := location,
              notes := notes }

def dumpRecipient (r : Recipient) : Mapping :=
  [("name", Value.str r.name), ("phone_number", Value.str r.phone_number),
   ("location", Value.obj (dumpLocation r.location)),
   ("notes", optVal Value.str r.notes)]

/-- `class Driver(BaseModel)` of order.py. -/
structure Driver where
  id : String
  name : String
  phone_number : String
deriving DecidableEq

def parseDriver (m : Mapping) : Except String Driver := do
  let i ← getField m "id" >>= asStr
  let name ← getField m "name" >>= asStr
  let phone_number ← getField m "phone_number" >>= asStr
  Except.ok { id := i, name := name, phone_number := phone_number }

def dumpDriver (d : Driver) : Mapping :=
  [("id", Value.str d.id), ("name", Value.str d.name),
   ("phone_number", Value.str d.phone_number)]

/-- `class DeliveryTasks(BaseModel)` of order.py. -/
structure DeliveryTasks where
  age_verification_required : Bool
deriving DecidableEq

def parseDeliveryTasks (m : Mapping) : Except String DeliveryTasks := do
  let a ← getField m "age_verification_required" >>= asBool
  Except.ok { age_verification_required := a }

def dumpDeliveryTasks (t : DeliveryTasks) : Mapping :=
  [("age_verification_required", Value.bool t.age_verification_required)]

/-- `class OrderInput(BaseModel)` of order.py. -/
structure OrderInput where
  client_order_id : Option String
  sender : Option Sender
  recipient : Recipient
  payment_method : Option PaymentMethod
  amount : Rat
  collect_from_customer : Option Rat
  coldbag_needed : Option Bool
  description : String
  preordered_for : Option Int
  delivery_tasks : Option DeliveryTasks
deriving DecidableEq

def parseOrderInput (m : Mapping) : Except String OrderInput := do
  let client_order_id ← getField m "client_order_id" >>= asOpt asStr
  let sender ← getField m "sender" >>= asOpt (asObj parseSender)
  let recipient ← getField m "recipient" >>= asObj parseRecipient
  let payment_method ← getField m "payment_method" >>= asOpt (asEnum PaymentMethod.ofString)
  let amount ← getField m "amount" >>= asNum
  let collect_from_customer ← getField m "collect_from_customer" >>= asOpt asNum
  let coldbag_needed ← getField m "coldbag_needed" >>= asOpt asBool
  let description ← getField m "description" >>= asStr
  let preordered_for ← getField m "preordered_for" >>= asOpt asInt
  let delivery_tasks ← getField m "delivery_tasks" >>= asOpt (asObj parseDeliveryTasks)
  Except.ok { client_order_id := client_order_id, sender := sender,
              recipient := recipient, payment_method := payment_method,
              amount := amount, collect_from_customer := collect_from_customer,
              coldbag_needed := coldbag_needed, description := description,
              preordered_for := preordered_for, delivery_tasks := delivery_tasks }

/-- `class OrderTimeline(BaseModel)` of order.py. -/
structure OrderTimeline where
  estimated_pickup_time : String
  estimated_delivery_time : String
deriving DecidableEq

def parseOrderTimeline (m : Mapping) : Except String OrderTimeline := do
  let p ← getField m "estimated_pickup_time" >>= asStr
  let d ← getField m "estimated_delivery_time" >>= asStr
  Except.ok { estimated_pickup_time := p, estimated_delivery_time := d }

def dumpOrderTimeline (t : OrderTimeline) : Mapping :=
  [("estimated_pickup_time", Value.str t.estimated_pickup_time),
   ("estimated_delivery_time", Value.str t.estimated_delivery_time)]

/-- `class Cancellation(BaseModel)` of order.py. -/
structure Cancellation where
  source : CancellationSource
  reason : CancellationReason
deriving DecidableEq

def parseCancellation (m : Mapping) : Except String Cancellation := do
  let source ← getField m "source" >>= asEnum CancellationSource.ofString
  let reason ← getField m "reason" >>= asEnum CancellationReason.ofString
  Except.ok { source := source, reason := reason }

def dumpCancellation (c : Cancellation) : Mapping :=
  [("source", Value.str c.source.toString),
   ("reason", Value.str c.reason.toString)]

/-- `class Order(BaseModel)` of order.py: the full record returned by
the remote system, with six optional "detailed response" fields. -/
structure Order where
  order_id : String
  client_order_id : String
  sender : Sender
  recipient : Recipient
  distance : Rat
  payment_method : PaymentMethod
  coldbag_needed : Bool
  amount : Rat
  description : String
  status : OrderStatus
  delivery_fee : Rat
  timeline : OrderTimeline
  driver : Driver
  created_at : String
  updated_at : String
  delivery_tasks : DeliveryTasks
  is_dynamic_pickup : Option Bool
  tracking_link : Option String
  proof_of_delivery_url : Option String
  proof_of_pickup_url : Option String
  proof_of_return_url : Option String
  cancellation : Option Cancellation
deriving DecidableEq

/-- The `computed_field` `is_detailed` of `Order`, with the source's
exact disjunct order. -/
def Order.is_detailed (o : Order) : Bool :=
  o.tracking_link ≠ none
  || o.proof_of_pickup_url ≠ none
  || o.proof_of_delivery_url ≠ none
  || o.proof_of_return_url ≠ none
  || o.cancellation ≠ none
  || o.is_dynamic_pickup ≠ none

def parseOrder (m : Mapping) : Except String Order := do
  let order_id ← getField m "order_id" >>= asStr
  let client_order_id ← getField m "client_order_id" >>= asStr
  let sender ← getField m "sender" >>= asObj parseSender
  let recipient ← getField m "recipient" >>= asObj parseRecipient
  let distance ← getField m "distance" >>= asNum
  let payment_method ← getField m "payment_method" >>= asEnum PaymentMethod.ofString
  let coldbag_needed ← getField m "coldbag_needed" >>= asBool
  let amount ← getField m "amount" >>= asNum
  let description ← getField m "description" >>= asStr
  let status ← getField m "status" >>= asEnum OrderStatus.ofString
  let delivery_fee ← getField m "delivery_fee" >>= asNum
  let timeline ← getField m "timeline" >>= asObj parseOrderTimeline
  let driver ← getField m "driver" >>= asObj parseDriver
  let created_at ← getField m "created_at" >>= asDt
  let updated_at ← getField m "updated_at" >>= asDt
  let delivery_tasks ← getField m "delivery_tasks" >>= asObj parseDeliveryTasks
  let is_dynamic_pickup ← getField m "is_dynamic_pickup" >>= asOpt asBool
  let tracking_link ← getField m "tracking_link" >>= asOpt asStr
  let proof_of_delivery_url ← getField m "proof_of_delivery_url" >>= asOpt asStr
  let proof_of_pickup_url ← getField m "proof_of_pickup_url" >>= asOpt asStr
  let proof_of_return_url ← getField m "proof_of_return_url" >>= asOpt asStr
  let cancellation ← getField m "cancellation" >>= asOpt (asObj parseCancellation)
  Except.ok { order_id := order_id, client_order_id := client_order_id,
              sender := sender, recipient := recipient, distance := distance,
              payment_method := payment_method, coldbag_needed := coldbag_needed,
              amount := amount, description := description, status := status,
              delivery_fee := delivery_fee, timeline := timeline, driver := driver,
              created_at := created_at, updated_at := updated_at,
              delivery_tasks := delivery_tasks,
              is_dynamic_pickup := is_dynamic_pickup, tracking_link := tracking_link,
              proof_of_delivery_url := proof_of_delivery_url,
              proof_of_pickup_url := proof_of_pickup_url,
              proof_of_return_url := proof_of_return_url,
              cancellation := cancellation }

/-- `model_dump` of `Order`: declared fields in declaration order, then
the computed `is_detailed` field. -/
def dumpOrder (o : Order) : Mapping :=
  [("order_id", Value.str o.order_id),
   ("client_order_id", Value.str o.client_order_id),
   ("sender", Value.obj (dumpSender o.sender)),
   ("recipient", Value.obj (dumpRecipient o.recipient)),
   ("distance", Value.num o.distance),
   ("payment_method", Value.str o.payment_method.toString),
   ("coldbag_needed", Value.bool o.coldbag_needed),
   ("amount", Value.num o.amount),
   ("description", Value.str o.description),
   ("status", Value.str o.status.toString),
   ("delivery_fee", Value.num o.delivery_fee),
   ("timeline", Value.obj (dumpOrderTimeline o.timeline)),
   ("driver", Value.obj (dumpDriver o.driver)),
   ("created_at", Value.dt o.created_at),
   ("updated_at", Value.dt o.updated_at),
   ("delivery_tasks", Value.obj (dumpDeliveryTasks o.delivery_tasks)),
   ("is_dynamic_pickup", optVal Value.bool o.is_dynamic_pickup),
   ("tracking_link", optVal Value.str o.tracking_link),
   ("proof_of_delivery_url", optVal Value.str o.proof_of_delivery_url),
   ("proof_of_pickup_url", optVal Value.str o.proof_of_pickup_url),
   ("proof_of_return_url", optVal Value.str o.proof_of_return_url),
   ("cancellation", optVal (fun c => Value.obj (dumpCancellation c)) o.cancellation),
   ("is_detailed", Value.bool o.is_detailed)]

/-- `class OrderCancellationInput(BaseModel)` of order.py. -/
structure OrderCancellationInput where
  reason : CancellationReason
deriving DecidableEq

/-- The `model_validator(mode="after")` `check_valid_reason`: only the
3-value subset of the 18 reasons is accepted. -/
def OrderCancellationInput.check_valid_reason (i : OrderCancellationInput) :
    Except String OrderCancellationInput :=
  if i.reason = CancellationReason.DELIVERY_ETA_TOO_LONG
     ∨ i.reason = CancellationReason.MISTAKE_ERROR
     ∨ i.reason = CancellationReason.REASON_UNKNOWN then
    Except.ok i
  else
    Except.error "Invalid Cancellation Reason."

def parseOrderCancellationInput (m : Mapping) : Except String OrderCancellationInput := do
  let reason ← getField m "reason" >>= asEnum CancellationReason.ofString
  OrderCancellationInput.check_valid_reason { reason := reason }

/-- `class UpdateOrderLocationInput(BaseModel)` of order.py. -/
structure UpdateOrderLocationInput where
  address : Option String
  latitude : Rat
  longitude : Rat
  notes : Option String
deriving DecidableEq

def parseUpdateOrderLocationInput (m : Mapping) : Except String UpdateOrderLocationInput := do
  let address ← getField m "address" >>= asOpt asStr
  let latitude ← getField m "latitude" >>= asNum
  let longitude ← getField m "longitude" >>= asNum
  let notes ← getField m "notes" >>= asOpt asStr
  Except.ok { address := address, latitude := latitude, longitude := longitude,
              notes := notes }

/-- `class UpdateOrderInput(BaseModel)` of order.py. -/
structure UpdateOrderInput where
  payment_method : Option PaymentMethod
  amount : Option Rat
  location : Option UpdateOrderLocationInput
  description : Option String
deriving DecidableEq

def parseUpdateOrderInput (m : Mapping) : Except String UpdateOrderInput := do
  let payment_method ← getField m "payment_method" >>= asOpt (asEnum PaymentMethod.ofString)
  let amount ← getField m "amount" >>= asOpt asNum
  let location ← getField m "location" >>= asOpt (asObj parseUpdateOrderLocationInput)
  let description ← getField m "description" >>= asOpt asStr
  Except.ok { payment_method := payment_method, amount := amount,
              location := location, description := description }

end Pandago

namespace Pandago

theorem parseLocation_dumpLocation (l : Location) :
    parseLocation (dumpLocation l) = Except.ok l := by
  cases l with
  | mk a la lo p => cases p <;> rfl

theorem asOpt_optVal_str (x : Option String) :
    asOpt asStr (optVal Value.str x) = Except.ok x := by
  cases x <;> rfl

theorem asOpt_optVal_bool (x : Option Bool) :
    asOpt asBool (optVal Value.bool x) = Except.ok x := by
  cases x <;> rfl

theorem asOpt_optVal_obj {α : Type} {p : Mapping → Except String α} {d : α → Mapping}
    (h : ∀ a, p (d a) = Except.ok a) (x : Option α) :
    asOpt (asObj p) (optVal (fun a => Value.obj (d a)) x) = Except.ok x := by
  cases x <;> simp [asOpt, asObj, optVal, h, Except.map]

theorem parseSender_dumpSender (s : Sender) :
    parseSender (dumpSender s) = Sender.check_sender_information s := by
  simp [parseSender, dumpSender, getField, findVal, asOpt_optVal_str,
        asOpt_optVal_obj parseLocation_dumpLocation, Bind.bind, Except.bind]

theorem parseRecipient_dumpRecipient (r : Recipient) :
    parseRecipient (dumpRecipient r) = Except.ok r := by
  simp [parseRecipient, dumpRecipient, getField, findVal, asStr, asOpt_optVal_str,
        asObj, parseLocation_dumpLocation, Bind.bind, Except.bind]

theorem parseDriver_dumpDriver (d : Driver) :
    parseDriver (dumpDriver d) = Except.ok d := by
  rfl

theorem parseDeliveryTasks_dumpDeliveryTasks (t : DeliveryTasks) :
    parseDeliveryTasks (dumpDeliveryTasks t) = Except.ok t := by
  rfl

theorem parseOrderTimeline_dumpOrderTimeline (t : OrderTimeline) :
    parseOrderTimeline (dumpOrderTimeline t) = Except.ok t := by
  rfl

theorem paymentMethod_ofString_toString (p : PaymentMethod) :
    PaymentMethod.ofString p.toString = some p := by
  cases p <;> rfl

theorem orderStatus_ofString_toString (s : OrderStatus) :
    OrderStatus.ofString s.toString = some s := by
  cases s <;> rfl

theorem cancellationSource_ofString_toString (s : CancellationSource) :
    CancellationSource.ofString s.toString = some s := by
  cases s <;> rfl

theorem cancellationReason_ofString_toString (r : CancellationReason) :
    CancellationReason.ofString r.toString = some r := by
  cases r <;> rfl

theorem asEnum_toString {α : Type} {ofS : String → Option α} {toS : α → String}
    (h : ∀ e, ofS (toS e) = some e) (e : α) :
    asEnum ofS (Value.str (toS e)) = Except.ok e := by
  simp [asEnum, h]

theorem parseCancellation_dumpCancellation (c : Cancellation) :
    parseCancellation (dumpCancellation c) = Except.ok c := by
  cases c with
  | mk s r => cases s <;> cases r <;> rfl

theorem parseOrder_dumpOrder (o : Order)
    (h : Sender.check_sender_information o.sender = Except.ok o.sender) :
    parseOrder (dumpOrder o) = Except.ok o := by
  have a1 : (getField (dumpOrder o) "order_id" >>= asStr) = Except.ok o.order_id := rfl
  have a2 : (getField (dumpOrder o) "client_order_id" >>= asStr) =
      Except.ok o.client_order_id := rfl
  have a3 : (getField (dumpOrder o) "sender" >>= asObj parseSender) =
      Except.ok o.sender := by
    have e : (getField (dumpOrder o) "sender" >>= asObj parseSender) =
        parseSender (dumpSender o.sender) := rfl
    rw [e, parseSender_dumpSender, h]
  have a4 : (getField (dumpOrder o) "recipient" >>= asObj parseRecipient) =
      Except.ok o.recipient := by
    have e : (getField (dumpOrder o) "recipient" >>= asObj parseRecipient) =
        parseRecipient (dumpRecipient o.recipient) := rfl
    rw [e, parseRecipient_dumpRecipient]
  have a5 : (getField (dumpOrder o) "distance" >>= asNum) = Except.ok o.distance := rfl
  have a6 : (getField (dumpOrder o) "payment_method" >>= asEnum PaymentMethod.ofString) =
      Except.ok o.payment_method := by
    have e : (getField (dumpOrder o) "payment_method" >>= asEnum PaymentMethod.ofString) =
        asEnum PaymentMethod.ofString (Value.str o.payment_method.toString) := rfl
    rw [e, asEnum_toString paymentMethod_ofString_toString]
  have a7 : (getField (dumpOrder o) "coldbag_needed" >>= asBool) =
      Except.ok o.coldbag_needed := rfl
  have a8 : (getField (dumpOrder o) "amount" >>= asNum) = Except.ok o.amount := rfl
  have a9 : (getField (dumpOrder o) "description" >>= asStr) =
      Except.ok o.description := rfl
  have a10 : (getField (dumpOrder o) "status" >>= asEnum OrderStatus.ofString) =
      Except.ok o.status := by
    have e : (getField (dumpOrder o) "status" >>= asEnum OrderStatus.ofString) =
        asEnum OrderStatus.ofString (Value.str o.status.toString) := rfl
    rw [e, asEnum_toString orderStatus_ofString_toString]
  have a11 : (getField (dumpOrder o) "delivery_fee" >>= asNum) =
      Except.ok o.delivery_fee := rfl
  have a12 : (getField (dumpOrder o) "timeline" >>= asObj parseOrderTimeline) =
      Except.ok o.timeline := rfl
  have a13 : (getField (dumpOrder o) "driver" >>= asObj parseDriver) =
      Except.ok o.driver := rfl
  have a14 : (getField (dumpOrder o) "created_at" >>= asDt) =
      Except.ok o.created_at := rfl
  have a15 : (getField (dumpOrder o) "updated_at" >>= asDt) =
      Except.ok o.updated_at := rfl
  have a16 : (getField (dumpOrder o) "delivery_tasks" >>= asObj parseDeliveryTasks) =
      Except.ok o.delivery_tasks := rfl
  have a17 : (getField (dumpOrder o) "is_dynamic_pickup" >>= asOpt asBool) =
      Except.ok o.is_dynamic_pickup := by
    have e : (getField (dumpOrder o) "is_dynamic_pickup" >>= asOpt asBool) =
        asOpt asBool (optVal Value.bool o.is_dynamic_pickup) := rfl
    rw [e, asOpt_optVal_bool]
  have a18 : (getField (dumpOrder o) "tracking_link" >>= asOpt asStr) =
      Except.ok o.tracking_link := by
    have e : (getField (dumpOrder o) "tracking_link" >>= asOpt asStr) =
        asOpt asStr (optVal Value.str o.tracking_link) := rfl
    rw [e, asOpt_optVal_str]
  have a19 : (getField (dumpOrder o) "proof_of_delivery_url" >>= asOpt asStr) =
      Except.ok o.proof_of_delivery_url := by
    have e : (getField (dumpOrder o) "proof_of_delivery_url" >>= asOpt asStr) =
        asOpt asStr (optVal Value.str o.proof_of_delivery_url) := rfl
    rw [e, asOpt_optVal_str]
  have a20 : (getField (dumpOrder o) "proof_of_pickup_url" >>= asOpt asStr) =
      Except.ok o.proof_of_pickup_url := by
    have e : (getField (dumpOrder o) "proof_of_pickup_url" >>= asOpt asStr) =
        asOpt asStr (optVal Value.str o.proof_of_pickup_url) := rfl
    rw [e, asOpt_optVal_str]
  have a21 : (getField (dumpOrder o) "proof_of_return_url" >>= asOpt asStr) =
      Except.ok o.proof_of_return_url := by
    have e : (getField (dumpOrder o) "proof_of_return_url" >>= asOpt asStr) =
        asOpt asStr (optVal Value.str o.proof_of_return_url) := rfl
    rw [e, asOpt_optVal_str]
  have a22 : (getField (dumpOrder o) "cancellation" >>= asOpt (asObj parseCancellation)) =
      Except.ok o.cancellation := by
    have e : (getField (dumpOrder o) "cancellation" >>= asOpt (asObj parseCancellation)) =
        asOpt (asObj parseCancellation)
          (optVal (fun c => Value.obj (dumpCancellation c)) o.cancellation) := rfl
    rw [e, asOpt_optVal_obj parseCancellation_dumpCancellation]
  unfold parseOrder
  rw [a1, a2, a3, a4, a5, a6, a7, a8, a9, a10, a11, a12, a13, a14, a15, a16,
      a17, a18, a19, a20, a21, a22]
  rfl

/-- Did construction succeed? -/
def isOk {ε α : Type} : Except ε α → Bool
  | Except.ok _ => true
  | Except.error _ => false

theorem getField_ok_isSome {m : Mapping} {k : String} {v : Value}
    (h : getField m k = Except.ok v) : (findVal m k).isSome = true := by
  unfold getField at h
  cases hf : findVal m k <;> rw [hf] at h <;> simp_all

theorem getField_ok_findVal {m : Mapping} {k : String} {v : Value}
    (h : getField m k = Except.ok v) : findVal m k = some v := by
  unfold getField at h
  cases hf : findVal m k <;> rw [hf] at h <;> simp_all

theorem check_sender_ok_of_valid {s : Sender}
    (h : s.client_vendor_id ≠ none ∨
      (s.name ≠ none ∧ s.phone_number ≠ none ∧ s.location ≠ none)) :
    Sender.check_sender_information s = Except.ok s := by
  unfold Sender.check_sender_information
  split_ifs with h1 h2 <;> tauto

theorem asNum_ok_num {v : Value} {q : Rat} (h : asNum v = Except.ok q) :
    v = Value.num q := by
  cases v <;> simp_all [asNum]

/-- Sample data used by concrete witnesses. -/
def sampleLocation : Location :=
  { address := "1 Main St", latitude := 1, longitude := 2, postalcode := none }

def sampleSender : Sender :=
  { name := none, phone_number := none, location := none, notes := none,
    client_vendor_id := some "v1" }

def sampleRecipient : Recipient :=
  { name := "R", phone_number := "123", location := sampleLocation, notes := none }

def sampleDriver : Driver :=
  { id := "d1", name := "D", phone_number := "456" }

def sampleTimeline : OrderTimeline :=
  { estimated_pickup_time := "t1", estimated_delivery_time := "t2" }

def sampleTasks : DeliveryTasks :=
  { age_verification_required := false }

def sampleCancellation : Cancellation :=
  { source := CancellationSource.CLIENT, reason := CancellationReason.BAD_WEATHER }

/-- A concrete `Order` whose six detailed-response fields are all null. -/
def baseOrder : Order :=
  { order_id := "o1", client_order_id := "c1", sender := sampleSender,
    recipient := sampleRecipient, distance := 3,
    payment_method := PaymentMethod.PAID, coldbag_needed := false, amount := 10,
    description := "food", status := OrderStatus.NEW, delivery_fee := 2,
    timeline := sampleTimeline, driver := sampleDriver,
    created_at := "2024-01-01T00:00:00", updated_at := "2024-01-01T01:00:00",
    delivery_tasks := sampleTasks, is_dynamic_pickup := none,
    tracking_link := none, proof_of_delivery_url := none,
    proof_of_pickup_url := none, proof_of_return_url := none,
    cancellation := none }

/-- Declared field names of each model, in declaration order. -/
def locationFields : List String := ["address", "latitude", "longitude", "postalcode"]

def senderFields : List String :=
  ["name", "phone_number", "location", "notes", "client_vendor_id"]

def recipientFields : List String := ["name", "phone_number", "location", "notes"]

def driverFields : List String := ["id", "name", "phone_number"]

def deliveryTasksFields : List String := ["age_verification_required"]

def orderInputFields : List String :=
  ["client_order_id", "sender", "recipient", "payment_method", "amount",
   "collect_from_customer", "coldbag_needed", "description", "preordered_for",
   "delivery_tasks"]

def orderTimelineFields : List String :=
  ["estimated_pickup_time", "estimated_delivery_time"]

def cancellationFields : List String := ["source", "reason"]

def orderFields : List String :=
  ["order_id", "client_order_id", "sender", "recipient", "distance",
   "payment_method", "coldbag_needed", "amount", "description", "status",
   "delivery_fee", "timeline", "driver", "created_at", "updated_at",
   "delivery_tasks", "is_dynamic_pickup", "tracking_link",
   "proof_of_delivery_url", "proof_of_pickup_url", "proof_of_return_url",
   "cancellation"]

def orderCancellationInputFields : List String := ["reason"]

def updateOrderLocationInputFields : List String :=
  ["address", "latitude", "longitude", "notes"]

def updateOrderInputFields : List String :=
  ["payment_method", "amount", "location", "description"]

/-- C1: For every assignment of the five `Sender` fields (serialized with
an explicit null for each absent value), construction succeeds iff
`client_vendor_id` is non-null OR `name`, `phone_number` and `location`
are all non-null; the two boundary instances of the claim behave as it
states. -/
theorem sender_construction_iff :
    (∀ s : Sender, isOk (parseSender (dumpSender s)) = true ↔
      (s.client_vendor_id ≠ none ∨
        (s.name ≠ none ∧ s.phone_number ≠ none ∧ s.location ≠ none)))
    ∧ isOk (parseSender
        [("name", Value.null), ("phone_number", Value.null),
         ("location", Value.null), ("notes", Value.null),
         ("client_vendor_id", Value.str "v1")]) = true
    ∧ isOk (parseSender
        [("name", Value.str "A"), ("phone_number", Value.null),
         ("location", Value.null), ("notes", Value.null),
         ("client_vendor_id", Value.null)]) = false := by
  refine ⟨?_, rfl, rfl⟩
  intro s
  rw [parseSender_dumpSender]
  unfold Sender.check_sender_information
  split_ifs with h1 h2 <;> simp [isOk, h1] <;> tauto

/-- C2: `OrderCancellationInput` construction succeeds exactly for the
reasons DELIVERY_ETA_TOO_LONG, MISTAKE_ERROR, REASON_UNKNOWN; the other
15 members fail, in particular BAD_WEATHER fails and MISTAKE_ERROR
succeeds. -/
theorem order_cancellation_reason_iff :
    (∀ r : CancellationReason,
      isOk (parseOrderCancellationInput [("reason", Value.str r.toString)]) = true ↔
        (r = CancellationReason.DELIVERY_ETA_TOO_LONG ∨
         r = CancellationReason.MISTAKE_ERROR ∨
         r = CancellationReason.REASON_UNKNOWN))
    ∧ isOk (parseOrderCancellationInput [("reason", Value.str "BAD_WEATHER")]) = false
    ∧ isOk (parseOrderCancellationInput [("reason", Value.str "MISTAKE_ERROR")]) = true := by
  refine ⟨?_, rfl, rfl⟩
  intro r
  cases r <;> decide

/-- C3: `Order.is_detailed` is true iff at least one of the six optional
detailed-response fields is non-null. -/
theorem order_is_detailed_iff (o : Order) :
    o.is_detailed = true ↔
      (o.tracking_link ≠ none ∨ o.proof_of_pickup_url ≠ none ∨
       o.proof_of_delivery_url ≠ none ∨ o.proof_of_return_url ≠ none ∨
       o.cancellation ≠ none ∨ o.is_dynamic_pickup ≠ none) := by
  simp [Order.is_detailed, Bool.or_eq_true, decide_eq_true_eq]
  tauto

/-- C4 as stated is false on the code: `is_detailed` is not the OR of
presence over any five of the six detailed fields — for each choice of
five, a concrete `Order` (null except for the omitted sixth field)
disagrees. -/
theorem is_detailed_not_five_fields :
    (¬ ∀ o : Order, o.is_detailed =
        (o.proof_of_pickup_url.isSome || o.proof_of_delivery_url.isSome ||
         o.proof_of_return_url.isSome || o.cancellation.isSome ||
         o.is_dynamic_pickup.isSome))
    ∧ (¬ ∀ o : Order, o.is_detailed =
        (o.tracking_link.isSome || o.proof_of_delivery_url.isSome ||
         o.proof_of_return_url.isSome || o.cancellation.isSome ||
         o.is_dynamic_pickup.isSome))
    ∧ (¬ ∀ o : Order, o.is_detailed =
        (o.tracking_link.isSome || o.proof_of_pickup_url.isSome ||
         o.proof_of_return_url.isSome || o.cancellation.isSome ||
         o.is_dynamic_pickup.isSome))
    ∧ (¬ ∀ o : Order, o.is_detailed =
        (o.tracking_link.isSome || o.proof_of_pickup_url.isSome ||
         o.proof_of_delivery_url.isSome || o.cancellation.isSome ||
         o.is_dynamic_pickup.isSome))
    ∧ (¬ ∀ o : Order, o.is_detailed =
        (o.tracking_link.isSome || o.proof_of_pickup_url.isSome ||
         o.proof_of_delivery_url.isSome || o.proof_of_return_url.isSome ||
         o.is_dynamic_pickup.isSome))
    ∧ (¬ ∀ o : Order, o.is_detailed =
        (o.tracking_link.isSome || o.proof_of_pickup_url.isSome ||
         o.proof_of_delivery_url.isSome || o.proof_of_return_url.isSome ||
         o.cancellation.isSome)) := by
  refine ⟨fun h => ?_, fun h => ?_, fun h => ?_, fun h => ?_, fun h => ?_, fun h => ?_⟩
  · exact absurd (h { baseOrder with tracking_link := some "t" }) (by decide)
  · exact absurd (h { baseOrder with proof_of_pickup_url := some "u" }) (by decide)
  · exact absurd (h { baseOrder with proof_of_delivery_url := some "u" }) (by decide)
  · exact absurd (h { baseOrder with proof_of_return_url := some "u" }) (by decide)
  · exact absurd (h { baseOrder with cancellation := some sampleCancellation }) (by decide)
  · exact absurd (h { baseOrder with is_dynamic_pickup := some true }) (by decide)

/-- C4 amended: `is_detailed` is a pure function of exactly six optional
fields — the logical OR of presence over tracking_link,
proof_of_pickup_url, proof_of_delivery_url, proof_of_return_url,
cancellation, is_dynamic_pickup — and depends on no other field of
`Order`. -/
theorem is_detailed_six_fields (o : Order) :
    o.is_detailed =
      (o.tracking_link.isSome || o.proof_of_pickup_url.isSome ||
       o.proof_of_delivery_url.isSome || o.proof_of_return_url.isSome ||
       o.cancellation.isSome || o.is_dynamic_pickup.isSome) := by
  rw [Bool.eq_iff_iff]
  simp [Order.is_detailed, Bool.or_eq_true, decide_eq_true_eq,
        Option.isSome_iff_ne_none]

theorem bind_ok_field {α β : Type} {m : Mapping} {k : String}
    {g : Value → Except String α} {f : α → Except String β} {b : β}
    (h : ((getField m k >>= g) >>= f) = Except.ok b) :
    (findVal m k).isSome = true ∧ ∃ a, f a = Except.ok b := by
  rw [exceptBind_ok] at h
  obtain ⟨a, ha, hf⟩ := h
  rw [exceptBind_ok] at ha
  obtain ⟨v, hv, _⟩ := ha
  exact ⟨getField_ok_isSome hv, a, hf⟩

theorem bind_ok_field_val {α β : Type} {m : Mapping} {k : String}
    {g : Value → Except String α} {f : α → Except String β} {b : β}
    (h : ((getField m k >>= g) >>= f) = Except.ok b) :
    ∃ v a, findVal m k = some v ∧ g v = Except.ok a ∧ f a = Except.ok b := by
  rw [exceptBind_ok] at h
  obtain ⟨a, ha, hf⟩ := h
  rw [exceptBind_ok] at ha
  obtain ⟨v, hv, hg⟩ := ha
  exact ⟨v, a, getField_ok_findVal hv, hg, hf⟩

/-- C5: serializing a valid `Order` — one whose sender satisfies the
sender invariant, as every constructed order does — to its field
mapping (including the computed `is_detailed` key) and parsing that
mapping back succeeds and yields the original instance. -/
theorem order_serialization_roundtrip (o : Order)
    (h : o.sender.client_vendor_id ≠ none ∨
      (o.sender.name ≠ none ∧ o.sender.phone_number ≠ none ∧
       o.sender.location ≠ none)) :
    parseOrder (dumpOrder o) = Except.ok o :=
  parseOrder_dumpOrder o (check_sender_ok_of_valid h)

theorem order_serialization_roundtrip_witness :
    (baseOrder.sender.client_vendor_id ≠ none ∨
      (baseOrder.sender.name ≠ none ∧ baseOrder.sender.phone_number ≠ none ∧
       baseOrder.sender.location ≠ none))
    ∧ parseOrder (dumpOrder baseOrder) = Except.ok baseOrder :=
  ⟨by decide, order_serialization_roundtrip baseOrder (by decide)⟩

/-- C6: no field of any model has a default value, so construction
succeeds only when every declared field name — including every
`Optional` one — is a key of the input mapping: for each of the twelve
models, a successful parse forces every one of its declared keys to be
present; an explicit null for an Optional field is accepted, while
omitting the key fails. -/
theorem optional_fields_require_keys :
    (∀ m x, parseLocation m = Except.ok x →
      ∀ k ∈ locationFields, (findVal m k).isSome = true)
    ∧ (∀ m x, parseSender m = Except.ok x →
      ∀ k ∈ senderFields, (findVal m k).isSome = true)
    ∧ (∀ m x, parseRecipient m = Except.ok x →
      ∀ k ∈ recipientFields, (findVal m k).isSome = true)
    ∧ (∀ m x, parseDriver m = Except.ok x →
      ∀ k ∈ driverFields, (findVal m k).isSome = true)
    ∧ (∀ m x, parseDeliveryTasks m = Except.ok x →
      ∀ k ∈ deliveryTasksFields, (findVal m k).isSome = true)
    ∧ (∀ m x, parseOrderInput m = Except.ok x →
      ∀ k ∈ orderInputFields, (findVal m k).isSome = true)
    ∧ (∀ m x, parseOrderTimeline m = Except.ok x →
      ∀ k ∈ orderTimelineFields, (findVal m k).isSome = true)
    ∧ (∀ m x, parseCancellation m = Except.ok x →
      ∀ k ∈ cancellationFields, (findVal m k).isSome = true)
    ∧ (∀ m x, parseOrder m = Except.ok x →
      ∀ k ∈ orderFields, (findVal m k).isSome = true)
    ∧ (∀ m x, parseOrderCancellationInput m = Except.ok x →
      ∀ k ∈ orderCancellationInputFields, (findVal m k).isSome = true)
    ∧ (∀ m x, parseUpdateOrderLocationInput m = Except.ok x →
      ∀ k ∈ updateOrderLocationInputFields, (findVal m k).isSome = true)
    ∧ (∀ m x, parseUpdateOrderInput m = Except.ok x →
      ∀ k ∈ updateOrderInputFields, (findVal m k).isSome = true)
    ∧ isOk (parseSender
        [("name", Value.null), ("phone_number", Value.null),
         ("location", Value.null), ("notes", Value.null),
         ("client_vendor_id", Value.str "v1")]) = true
    ∧ isOk (parseSender
        [("name", Value.null), ("phone_number", Value.null),
         ("location", Value.null), ("client_vendor_id", Value.str "v1")]) = false := by
  refine ⟨?_, ?_, ?_, ?_, ?_, ?_, ?_, ?_, ?_, ?_, ?_, ?_, rfl, rfl⟩
  · intro m x h k hk
    unfold parseLocation at h
    obtain ⟨h1, _, h⟩ := bind_ok_field h
    obtain ⟨h2, _, h⟩ := bind_ok_field h
    obtain ⟨h3, _, h⟩ := bind_ok_field h
    obtain ⟨h4, _, _⟩ := bind_ok_field h
    simp only [locationFields] at hk
    fin_cases hk <;> assumption
  · intro m x h k hk
    unfold parseSender at h
    obtain ⟨h1, _, h⟩ := bind_ok_field h
    obtain ⟨h2, _, h⟩ := bind_ok_field h
    obtain ⟨h3, _, h⟩ := bind_ok_field h
    obtain ⟨h4, _, h⟩ := bind_ok_field h
    obtain ⟨h5, _, _⟩ := bind_ok_field h
    simp only [senderFields] at hk
    fin_cases hk <;> assumption
  · intro m x h k hk
    unfold parseRecipient at h
    obtain ⟨h1, _, h⟩ := bind_ok_field h
    obtain ⟨h2, _, h⟩ := bind_ok_field h
    obtain ⟨h3, _, h⟩ := bind_ok_field h
    obtain ⟨h4, _, _⟩ := bind_ok_field h
    simp only [recipientFields] at hk
    fin_cases hk <;> assumption
  · intro m x h k hk
    unfold parseDriver at h
    obtain ⟨h1, _, h⟩ := bind_ok_field h
    obtain ⟨h2, _, h⟩ := bind_ok_field h
    obtain ⟨h3, _, _⟩ := bind_ok_field h
    simp only [driverFields] at hk
    fin_cases hk <;> assumption
  · intro m x h k hk
    unfold parseDeliveryTasks at h
    obtain ⟨h1, _, _⟩ := bind_ok_field h
    simp only [deliveryTasksFields] at hk
    fin_cases hk <;> assumption
  · intro m x h k hk
    unfold parseOrderInput at h
    obtain ⟨h1, _, h⟩ := bind_ok_field h
    obtain ⟨h2, _, h⟩ := bind_ok_field h
    obtain ⟨h3, _, h⟩ := bind_ok_field h
    obtain ⟨h4, _, h⟩ := bind_ok_field h
    obtain ⟨h5, _, h⟩ := bind_ok_field h
    obtain ⟨h6, _, h⟩ := bind_ok_field h
    obtain ⟨h7, _, h⟩ := bind_ok_field h
    obtain ⟨h8, _, h⟩ := bind_ok_field h
    obtain ⟨h9, _, h⟩ := bind_ok_field h
    obtain ⟨h10, _, _⟩ := bind_ok_field h
    simp only [orderInputFields] at hk
    fin_cases hk <;> assumption
  · intro m x h k hk
    unfold parseOrderTimeline at h
    obtain ⟨h1, _, h⟩ := bind_ok_field h
    obtain ⟨h2, _, _⟩ := bind_ok_field h
    simp only [orderTimelineFields] at hk
    fin_cases hk <;> assumption
  · intro m x h k hk
    unfold parseCancellation at h
    obtain ⟨h1, _, h⟩ := bind_ok_field h
    obtain ⟨h2, _, _⟩ := bind_ok_field h
    simp only [cancellationFields] at hk
    fin_cases hk <;> assumption
  · intro m x h k hk
    unfold parseOrder at h
    obtain ⟨h1, _, h⟩ := bind_ok_field h
    obtain ⟨h2, _, h⟩ := bind_ok_field h
    obtain ⟨h3, _, h⟩ := bind_ok_field h
    obtain ⟨h4, _, h⟩ := bind_ok_field h
    obtain ⟨h5, _, h⟩ := bind_ok_field h
    obtain ⟨h6, _, h⟩ := bind_ok_field h
    obtain ⟨h7, _, h⟩ := bind_ok_field h
    obtain ⟨h8, _, h⟩ := bind_ok_field h
    obtain ⟨h9, _, h⟩ := bind_ok_field h
    obtain ⟨h10, _, h⟩ := bind_ok_field h
    obtain ⟨h11, _, h⟩ := bind_ok_field h
    obtain ⟨h12, _, h⟩ := bind_ok_field h
    obtain ⟨h13, _, h⟩ := bind_ok_field h
    obtain ⟨h14, _, h⟩ := bind_ok_field h
    obtain ⟨h15, _, h⟩ := bind_ok_field h
    obtain ⟨h16, _, h⟩ := bind_ok_field h
    obtain ⟨h17, _, h⟩ := bind_ok_field h
    obtain ⟨h18, _, h⟩ := bind_ok_field h
    obtain ⟨h19, _, h⟩ := bind_ok_field h
    obtain ⟨h20, _, h⟩ := bind_ok_field h
    obtain ⟨h21, _, h⟩ := bind_ok_field h
    obtain ⟨h22, _, _⟩ := bind_ok_field h
    simp only [orderFields] at hk
    fin_cases hk <;> assumption
  · intro m x h k hk
    unfold parseOrderCancellationInput at h
    obtain ⟨h1, _, _⟩ := bind_ok_field h
    simp only [orderCancellationInputFields] at hk
    fin_cases hk <;> assumption
  · intro m x h k hk
    unfold parseUpdateOrderLocationInput at h
    obtain ⟨h1, _, h⟩ := bind_ok_field h
    obtain ⟨h2, _, h⟩ := bind_ok_field h
    obtain ⟨h3, _, h⟩ := bind_ok_field h
    obtain ⟨h4, _, _⟩ := bind_ok_field h
    simp only [updateOrderLocationInputFields] at hk
    fin_cases hk <;> assumption
  · intro m x h k hk
    unfold parseUpdateOrderInput at h
    obtain ⟨h1, _, h⟩ := bind_ok_field h
    obtain ⟨h2, _, h⟩ := bind_ok_field h
    obtain ⟨h3, _, h⟩ := bind_ok_field h
    obtain ⟨h4, _, _⟩ := bind_ok_field h
    simp only [updateOrderInputFields] at hk
    fin_cases hk <;> assumption

theorem optional_fields_require_keys_witness :
    ∃ s : Sender, parseSender (dumpSender sampleSender) = Except.ok s ∧
      (findVal (dumpSender sampleSender) "notes").isSome = true :=
  ⟨sampleSender, rfl,
    optional_fields_require_keys.2.1 (dumpSender sampleSender) sampleSender rfl
      "notes" (by decide)⟩

theorem orderStatus_ofString_isSome_iff (s : String) :
    (OrderStatus.ofString s).isSome = true ↔ s ∈ orderStatusStrings := by
  by_cases h1 : s = "NEW"
  · subst h1; decide
  by_cases h2 : s = "RECEIVED"
  · subst h2; decide
  by_cases h3 : s = "WAITING_FOR_TRANSPORT"
  · subst h3; decide
  by_cases h4 : s = "ASSIGNED_TO_TRANSPORT"
  · subst h4; decide
  by_cases h5 : s = "COURIER_ACCEPTED_DELIVERY"
  · subst h5; decide
  by_cases h6 : s = "NEAR_VENDOR"
  · subst h6; decide
  by_cases h7 : s = "PICKED_UP"
  · subst h7; decide
  by_cases h8 : s = "COURIER_LEFT_VENDOR"
  · subst h8; decide
  by_cases h9 : s = "NEAR_CUSTOMER"
  · subst h9; decide
  by_cases h10 : s = "DELIVERED"
  · subst h10; decide
  by_cases h11 : s = "DELAYED"
  · subst h11; decide
  by_cases h12 : s = "CANCELLED"
  · subst h12; decide
  by_cases h13 : s = "RETURNED_TO_VENDOR"
  · subst h13; decide
  have hnone : OrderStatus.ofString s = none := by
    unfold OrderStatus.ofString
    rw [if_neg h1, if_neg h2, if_neg h3, if_neg h4, if_neg h5, if_neg h6, if_neg h7,
        if_neg h8, if_neg h9, if_neg h10, if_neg h11, if_neg h12, if_neg h13]
  rw [hnone]
  simp [orderStatusStrings, h1, h2, h3, h4, h5, h6, h7, h8, h9, h10, h11, h12, h13]

/-- C7: parsing a status string succeeds for exactly the 13 member
strings of `OrderStatus`, and a successfully constructed `Order` can
only have had one of those 13 strings in its `status` field. -/
theorem order_status_enumeration :
    (∀ s : String, (OrderStatus.ofString s).isSome = true ↔ s ∈ orderStatusStrings)
    ∧ (∀ m o s, parseOrder m = Except.ok o →
        findVal m "status" = some (Value.str s) → s ∈ orderStatusStrings) := by
  refine ⟨orderStatus_ofString_isSome_iff, ?_⟩
  intro m o s h hs
  unfold parseOrder at h
  obtain ⟨_, _, h⟩ := bind_ok_field h
  obtain ⟨_, _, h⟩ := bind_ok_field h
  obtain ⟨_, _, h⟩ := bind_ok_field h
  obtain ⟨_, _, h⟩ := bind_ok_field h
  obtain ⟨_, _, h⟩ := bind_ok_field h
  obtain ⟨_, _, h⟩ := bind_ok_field h
  obtain ⟨_, _, h⟩ := bind_ok_field h
  obtain ⟨_, _, h⟩ := bind_ok_field h
  obtain ⟨_, _, h⟩ := bind_ok_field h
  obtain ⟨v, a, hv, hEnum, _⟩ := bind_ok_field_val h
  rw [hs] at hv
  cases hv
  rw [← orderStatus_ofString_isSome_iff]
  simp only [asEnum] at hEnum
  cases hof : OrderStatus.ofString s <;> rw [hof] at hEnum
  · simp at hEnum
  · rfl

theorem order_status_enumeration_witness :
    parseOrder (dumpOrder baseOrder) = Except.ok baseOrder ∧
      findVal (dumpOrder baseOrder) "status" = some (Value.str "NEW") ∧
      "NEW" ∈ orderStatusStrings :=
  ⟨rfl, rfl,
    order_status_enumeration.2 (dumpOrder baseOrder) baseOrder "NEW" rfl rfl⟩

/-- C8: partial-update payloads: `UpdateOrderInput` accepts all four
fields null; `UpdateOrderLocationInput` accepts null address and notes,
while a successful parse forces the latitude and longitude keys to be
present with number values — so a missing or non-number coordinate
fails. -/
theorem update_inputs_optionality :
    isOk (parseUpdateOrderInput
      [("payment_method", Value.null), ("amount", Value.null),
       ("location", Value.null), ("description", Value.null)]) = true
    ∧ isOk (parseUpdateOrderLocationInput
      [("address", Value.null), ("latitude", Value.num 1),
       ("longitude", Value.num 2), ("notes", Value.null)]) = true
    ∧ (∀ m u, parseUpdateOrderLocationInput m = Except.ok u →
        (∃ q, findVal m "latitude" = some (Value.num q)) ∧
        (∃ q, findVal m "longitude" = some (Value.num q))) := by
  refine ⟨rfl, rfl, ?_⟩
  intro m u h
  unfold parseUpdateOrderLocationInput at h
  obtain ⟨_, _, h⟩ := bind_ok_field h
  obtain ⟨v1, q1, hv1, hq1, h⟩ := bind_ok_field_val h
  obtain ⟨v2, q2, hv2, hq2, _⟩ := bind_ok_field_val h
  exact ⟨⟨q1, by rw [hv1, asNum_ok_num hq1]⟩, ⟨q2, by rw [hv2, asNum_ok_num hq2]⟩⟩

theorem update_inputs_optionality_witness :
    ∃ u, parseUpdateOrderLocationInput
        [("address", Value.null), ("latitude", Value.num 1),
         ("longitude", Value.num 2), ("notes", Value.null)] = Except.ok u ∧
      ((∃ q, findVal
          [("address", Value.null), ("latitude", Value.num 1),
           ("longitude", Value.num 2), ("notes", Value.null)] "latitude" =
            some (Value.num q)) ∧
       (∃ q, findVal
          [("address", Value.null), ("latitude", Value.num 1),
           ("longitude", Value.num 2), ("notes", Value.null)] "longitude" =
            some (Value.num q))) :=
  ⟨{ address := none, latitude := 1, longitude := 2, notes := none }, rfl,
    update_inputs_optionality.2.2
      [("address", Value.null), ("latitude", Value.num 1),
       ("longitude", Value.num 2), ("notes", Value.null)]
      { address := none, latitude := 1, longitude := 2, notes := none } rfl⟩

/-- C9: `Cancellation.source` accepts exactly the two strings CLIENT and
LOGISTICS, rejecting every other string, and a `Cancellation` parsed
from source LOGISTICS serializes back to the exact string LOGISTICS. -/
theorem cancellation_source_strings :
    (∀ s : String, (CancellationSource.ofString s).isSome = true ↔
      (s = "CLIENT" ∨ s = "LOGISTICS"))
    ∧ (parseCancellation
        [("source", Value.str "LOGISTICS"),
         ("reason", Value.str "REASON_UNKNOWN")]).map dumpCancellation =
      Except.ok [("source", Value.str "LOGISTICS"),
                 ("reason", Value.str "REASON_UNKNOWN")] := by
  refine ⟨?_, rfl⟩
  intro s
  by_cases h1 : s = "CLIENT"
  · subst h1; decide
  by_cases h2 : s = "LOGISTICS"
  · subst h2; decide
  have hnone : CancellationSource.ofString s = none := by
    unfold CancellationSource.ofString
    rw [if_neg h1, if_neg h2]
  rw [hnone]
  simp [h1, h2]

/-- C10: construction of every model is a pure function of the input
mapping — indeed of its restriction to that model declared field
names: two mappings agreeing on those keys yield the same outcome
(same instance or same validation error). -/
theorem construction_deterministic :
    (∀ m m', (∀ k ∈ locationFields, findVal m k = findVal m' k) →
      parseLocation m = parseLocation m')
    ∧ (∀ m m', (∀ k ∈ senderFields, findVal m k = findVal m' k) →
      parseSender m = parseSender m')
    ∧ (∀ m m', (∀ k ∈ recipientFields, findVal m k = findVal m' k) →
      parseRecipient m = parseRecipient m')
    ∧ (∀ m m', (∀ k ∈ driverFields, findVal m k = findVal m' k) →
      parseDriver m = parseDriver m')
    ∧ (∀ m m', (∀ k ∈ deliveryTasksFields, findVal m k = findVal m' k) →
      parseDeliveryTasks m = parseDeliveryTasks m')
    ∧ (∀ m m', (∀ k ∈ orderInputFields, findVal m k = findVal m' k) →
      parseOrderInput m = parseOrderInput m')
    ∧ (∀ m m', (∀ k ∈ orderTimelineFields, findVal m k = findVal m' k) →
      parseOrderTimeline m = parseOrderTimeline m')
    ∧ (∀ m m', (∀ k ∈ cancellationFields, findVal m k = findVal m' k) →
      parseCancellation m = parseCancellation m')
    ∧ (∀ m m', (∀ k ∈ orderFields, findVal m k = findVal m' k) →
      parseOrder m = parseOrder m')
    ∧ (∀ m m', (∀ k ∈ orderCancellationInputFields, findVal m k = findVal m' k) →
      parseOrderCancellationInput m = parseOrderCancellationInput m')
    ∧ (∀ m m', (∀ k ∈ updateOrderLocationInputFields, findVal m k = findVal m' k) →
      parseUpdateOrderLocationInput m = parseUpdateOrderLocationInput m')
    ∧ (∀ m m', (∀ k ∈ updateOrderInputFields, findVal m k = findVal m' k) →
      parseUpdateOrderInput m = parseUpdateOrderInput m') := by
  refine ⟨?_, ?_, ?_, ?_, ?_, ?_, ?_, ?_, ?_, ?_, ?_, ?_⟩
  · intro m m' h
    simp only [parseLocation, getField, h "address" (by decide),
      h "latitude" (by decide), h "longitude" (by decide),
      h "postalcode" (by decide)]
  · intro m m' h
    simp only [parseSender, getField, h "name" (by decide),
      h "phone_number" (by decide), h "location" (by decide),
      h "notes" (by decide), h "client_vendor_id" (by decide)]
  · intro m m' h
    simp only [parseRecipient, getField, h "name" (by decide),
      h "phone_number" (by decide), h "location" (by decide),
      h "notes" (by decide)]
  · intro m m' h
    simp only [parseDriver, getField, h "id" (by decide),
      h "name" (by decide), h "phone_number" (by decide)]
  · intro m m' h
    simp only [parseDeliveryTasks, getField,
      h "age_verification_required" (by decide)]
  · intro m m' h
    simp only [parseOrderInput, getField, h "client_order_id" (by decide),
      h "sender" (by decide), h "recipient" (by decide),
      h "payment_method" (by decide), h "amount" (by decide),
      h "collect_from_customer" (by decide), h "coldbag_needed" (by decide),
      h "description" (by decide), h "preordered_for" (by decide),
      h "delivery_tasks" (by decide)]
  · intro m m' h
    simp only [parseOrderTimeline, getField,
      h "estimated_pickup_time" (by decide),
      h "estimated_delivery_time" (by decide)]
  · intro m m' h
    simp only [parseCancellation, getField, h "source" (by decide),
      h "reason" (by decide)]
  · intro m m' h
    simp only [parseOrder, getField, h "order_id" (by decide),
      h "client_order_id" (by decide), h "sender" (by decide),
      h "recipient" (by decide), h "distance" (by decide),
      h "payment_method" (by decide), h "coldbag_needed" (by decide),
      h "amount" (by decide), h "description" (by decide),
      h "status" (by decide), h "delivery_fee" (by decide),
      h "timeline" (by decide), h "driver" (by decide),
      h "created_at" (by decide), h "updated_at" (by decide),
      h "delivery_tasks" (by decide), h "is_dynamic_pickup" (by decide),
      h "tracking_link" (by decide), h "proof_of_delivery_url" (by decide),
      h "proof_of_pickup_url" (by decide), h "proof_of_return_url" (by decide),
      h "cancellation" (by decide)]
  · intro m m' h
    simp only [parseOrderCancellationInput, getField, h "reason" (by decide)]
  · intro m m' h
    simp only [parseUpdateOrderLocationInput, getField, h "address" (by decide),
      h "latitude" (by decide), h "longitude" (by decide),
      h "notes" (by decide)]
  · intro m m' h
    simp only [parseUpdateOrderInput, getField, h "payment_method" (by decide),
      h "amount" (by decide), h "location" (by decide),
      h "description" (by decide)]

theorem construction_deterministic_witness :
    parseSender (dumpSender sampleSender) =
      parseSender (dumpSender sampleSender ++ [("extra_key", Value.null)]) :=
  construction_deterministic.2.1 (dumpSender sampleSender)
    (dumpSender sampleSender ++ [("extra_key", Value.null)])
    (by intro k hk; fin_cases hk <;> rfl)

end Pandago
